import Mathlib

/-!
# Debug facilities of `debug.h` (DevLib / BeRTOS)

A shallow embedding of the preprocessor-selected families of `debug.h`:

* `Bertos.Hosted`        : `_DEBUG` defined, `OS_HOSTED` = 1
* `Bertos.Freestanding`  : `_DEBUG` defined, `OS_HOSTED` = 0
* `Bertos.Release`       : `_DEBUG` undefined

Arguments of the C preprocessor definitions are expressions that are pasted
textually, so they are embedded as state transformers (`Expr`) and are run as
often as the expansion mentions them.  The text produced by the `#`
stringification operator and by `THIS_FILE` / `__LINE__` is passed explicitly.
-/

namespace Bertos

/-! ## Observable state -/

/-- Origin of a failure report: `__assert` (or the C library `assert`),
`__invalid_ptr` with the offending address, or `__check_wall`. -/
inductive Kind
  | assertion
  | invalid_ptr (p : Nat)
  | wall
  deriving DecidableEq, Repr

/-- Failure report: the text handed to the handler (condition text, pointer
expression or wall name), the source file and the source line. -/
structure Report where
  kind : Kind
  text : String
  file : String
  line : Nat
  deriving DecidableEq, Repr

/-- One item written on the diagnostic channel (stderr when hosted, the serial
or JTAG sink otherwise). -/
inductive Event
  | chars (s : String)
  | failure (r : Report)
  deriving DecidableEq, Repr

/-- Program state seen by the diagnostics: what was written on the diagnostic
channel, whether the process was aborted, and the client variables that an
argument expression may touch. -/
structure KState where
  out : List Event
  aborted : Bool
  vars : List Int
  deriving DecidableEq, Repr

/-- A C expression of type `α`: it yields a value and may change the state. -/
abbrev Expr (α : Type) := KState → α × KState

/-- A C statement. -/
abbrev Stmt := KState → KState

/-- A side-effect free expression. -/
def Expr.val {α : Type} (a : α) : Expr α := fun s => (a, s)

/-- The state in which nothing has been written yet. -/
def KState.init : KState := ⟨[], false, []⟩

/-- The state after writing one failure report on the diagnostic channel. -/
def KState.report (s : KState) (r : Report) : KState :=
  { s with out := s.out ++ [Event.failure r] }

/-- Failure reports written so far, oldest first. -/
def KState.reports (s : KState) : List Report :=
  s.out.filterMap fun e =>
    match e with
    | Event.failure r => some r
    | Event.chars _ => none

/-! ## Machine integers -/

/-- Conversion to `unsigned long` of `lb` bytes. -/
def ulong (lb : Nat) (x : Nat) : Nat := x % 2 ^ (8 * lb)

/-- Conversion to (two's complement) `long` of `lb` bytes. -/
def to_long (lb : Nat) (x : Int) : Int :=
  (x + 2 ^ (8 * lb - 1)) % 2 ^ (8 * lb) - 2 ^ (8 * lb - 1)

/-- Largest `int` of `ib` bits. -/
def INT_MAX (ib : Nat) : Int := 2 ^ (ib - 1) - 1

/-- Smallest `int` of `ib` bits. -/
def INT_MIN (ib : Nat) : Int := -(2 ^ (ib - 1))

/-- The null pointer. -/
def NULL : Nat := 0

/-! ## Parts that live outside `debug.h` -/

/-- Modelled from the spec: `LIKELY` comes from `compiler.h`, which is not
among the sources.  It is the "likely true" branch hint wrapped around a
condition; it does not change the truth value. -/
def LIKELY (x : Bool) : Bool := x

/-- Modelled from the spec: `countof` comes from `compiler.h`, which is not
among the sources.  It is the number of elements of an array. -/
def countof (a : List Int) : Nat := a.length

/-- Modelled from the spec: `__assert` is only declared in `debug.h` (it is
implemented in `drv/kdebug.c`).  The low-level assertion handler produces one
failure report from the condition text, the file and the line and returns a
failure indicator `rc`, which the spec requires to be non-zero. -/
def __assert (rc : Int) (cond file : String) (line : Nat) : Expr Int :=
  fun s => (rc, s.report ⟨Kind.assertion, cond, file, line⟩)

/-- Modelled from the spec: `__invalid_ptr` is only declared in `debug.h` (it
is implemented in `drv/kdebug.c`).  It fails exactly as `__assert` does, for
the pointer `p` whose expression text is `name`. -/
def __invalid_ptr (rc : Int) (p : Nat) (name file : String) (line : Nat) : Expr Int :=
  fun s => (rc, s.report ⟨Kind.invalid_ptr p, name, file, line⟩)

/-- The sentinel `(long)0xABADCAFEL` for a `long` of `lb` bytes. -/
def WALL_VALUE (lb : Nat) : Int := to_long lb 0xABADCAFE

/-- Modelled from the spec: `__init_wall` is only declared in `debug.h` (it is
implemented in `drv/kdebug.c`).  It fills every one of the `size` words of the
region with the sentinel pattern. -/
def __init_wall (lb : Nat) : List Int → Nat → List Int
  | _ :: ws, n + 1 => WALL_VALUE lb :: __init_wall lb ws n
  | ws, _ => ws

/-- Modelled from the spec: `__check_wall` is only declared in `debug.h` (it is
implemented in `drv/kdebug.c`).  It compares every one of the `size` words
against the sentinel; on the first mismatch it reports the failure (region
name, file, line) and returns the failure indicator `rc`; when all words match
it returns success (0) with no side effect. -/
def __check_wall (lb : Nat) (rc : Int) :
    List Int → Nat → String → String → Nat → Expr Int
  | w :: ws, n + 1, name, file, line => fun s =>
      if w ≠ WALL_VALUE lb then (rc, s.report ⟨Kind.wall, name, file, line⟩)
      else __check_wall lb rc ws n name file line s
  | _, _, _, _, _ => fun s => (0, s)

/-- C library `assert` from `assert.h` with `NDEBUG` undefined (`debug.h`
undefines it under `_DEBUG`): a true condition has no effect; a false one
writes the condition text, file and line on stderr and aborts the process. -/
def assert (x : Expr Bool) (xtext file : String) (line : Nat) : Stmt :=
  fun s =>
    let r := x s
    if r.1 then r.2
    else { (r.2.report ⟨Kind.assertion, xtext, file, line⟩) with aborted := true }

/-- Statement sequencing `a; b`: nothing runs once the process is aborted. -/
def seq (a b : Stmt) : Stmt :=
  fun s =>
    let s1 := a s
    if s1.aborted then s1 else b s1

/-! ## `_DEBUG` defined, `OS_HOSTED` = 1 -/

namespace Hosted

/-- The function `kdbg_init` of the hosted family: empty body. -/
def kdbg_init : Stmt := fun s => s

/-- The function `kputchar` of the hosted family: `putc(c, stderr)`. -/
def kputchar (c : Char) : Stmt :=
  fun s => { s with out := s.out ++ [Event.chars (String.singleton c)] }

/-- The function `kputs` of the hosted family: `fputs(str, stderr)`. -/
def kputs (str : String) : Stmt :=
  fun s => { s with out := s.out ++ [Event.chars str] }

/-- Expansion of `ASSERT(x)`: `assert(x)`. -/
def ASSERT (x : Expr Bool) (xtext file : String) (line : Nat) : Stmt :=
  assert x xtext file line

/-- Expansion of `ASSERT_VALID_PTR(p)`: `ASSERT((unsigned long)(p) > 0x200)`. -/
def ASSERT_VALID_PTR (lb : Nat) (p : Expr Nat) (ptext file : String) (line : Nat) : Stmt :=
  ASSERT
    (fun s =>
      let r := p s
      (decide (ulong lb r.1 > 0x200), r.2))
    ("(unsigned long)(" ++ ptext ++ ") > 0x200") file line

/-- Expansion of `ASSERT_VALID_PTR_OR_NULL(p)`:
`ASSERT((((p) == NULL) || ((unsigned long)(p) >= 0x200)))`; the right operand of
`||` is evaluated only when the left one is false.  In the condition text
`NULL` stands for what it expands to on the platform. -/
def ASSERT_VALID_PTR_OR_NULL (lb : Nat) (p : Expr Nat) (ptext file : String) (line : Nat) :
    Stmt :=
  ASSERT
    (fun s =>
      let r := p s
      if r.1 = NULL then (true, r.2)
      else
        let r2 := p r.2
        (decide (ulong lb r2.1 ≥ 0x200), r2.2))
    ("(((" ++ ptext ++ ") == NULL) || ((unsigned long)(" ++ ptext ++ ") >= 0x200))") file line

/-- Expansion of `ASSERT_VALID_OBJ(_t, _o)`:
`ASSERT_VALID_PTR((_o)); ASSERT(dynamic_cast<_t>((_o)) != NULL);`.
The source writes the two statements inside `do` braces with no closing
`while (0)`.  `dynamic_cast` is the result of the C++ run-time cast to `_t`
(`NULL` when the object does not have that type). -/
def ASSERT_VALID_OBJ (lb : Nat) (dynamic_cast : Nat → Nat) (_t : String) (_o : Expr Nat)
    (otext file : String) (line : Nat) : Stmt :=
  seq (ASSERT_VALID_PTR lb _o ("(" ++ otext ++ ")") file line)
    (ASSERT
      (fun s =>
        let r := _o s
        (decide (dynamic_cast r.1 ≠ NULL), r.2))
      ("dynamic_cast<" ++ _t ++ ">((" ++ otext ++ ")) != NULL") file line)

/-- Expansion of `ASSERT_ZERO_INSTANCES(CLASS)`: `ASSERT(CLASS::__instances == 0)`,
with `instances` the current value of the counter. -/
def ASSERT_ZERO_INSTANCES (CLASS : String) (instances : Int) (file : String) (line : Nat) :
    Stmt :=
  ASSERT (Expr.val (decide (instances = 0))) (CLASS ++ "::__instances == 0") file line

end Hosted

/-! ## `_DEBUG` defined, `OS_HOSTED` = 0 -/

namespace Freestanding

/-- Expansion of `ASSERT(x)`; `no_text` is `CONFIG_KDEBUG_ASSERT_NO_TEXT`:
unset `(LIKELY(x) ? 0 : __assert(#x, THIS_FILE, __LINE__))`,
set `(LIKELY(x) ? 0 : __assert("", THIS_FILE, __LINE__))`. -/
def ASSERT (no_text : Bool) (rc : Int) (x : Expr Bool) (xtext file : String) (line : Nat) :
    Expr Int :=
  match no_text with
  | false => fun s =>
      let r := x s
      if LIKELY r.1 then (0, r.2) else __assert rc xtext file line r.2
  | true => fun s =>
      let r := x s
      if LIKELY r.1 then (0, r.2) else __assert rc "" file line r.2

/-- Expansion of `ASSERT2(x, help)`; `no_text` is `CONFIG_KDEBUG_ASSERT_NO_TEXT`:
unset `(LIKELY(x) ? 0 : __assert(help " (" #x ")", THIS_FILE, __LINE__))`,
set `ASSERT(x)`. -/
def ASSERT2 (no_text : Bool) (rc : Int) (x : Expr Bool) (xtext help file : String)
    (line : Nat) : Expr Int :=
  match no_text with
  | false => fun s =>
      let r := x s
      if LIKELY r.1 then (0, r.2)
      else __assert rc (help ++ " (" ++ xtext ++ ")") file line r.2
  | true => ASSERT true rc x xtext file line

/-- Expansion of `ASSERT_VALID_PTR(p)`:
`(LIKELY((p) >= 0x200) ? 0 : __invalid_ptr(p, #p, THIS_FILE, __LINE__))`. -/
def ASSERT_VALID_PTR (rc : Int) (p : Expr Nat) (ptext file : String) (line : Nat) : Expr Int :=
  fun s =>
    let r := p s
    if LIKELY (decide (r.1 ≥ 0x200)) then (0, r.2)
    else
      let r2 := p r.2
      __invalid_ptr rc r2.1 ptext file line r2.2

/-- Expansion of `ASSERT_VALID_PTR_OR_NULL(p)`:
`(LIKELY((p == NULL) || ((p) >= 0x200)) ? 0 : __invalid_ptr((p), #p, THIS_FILE, __LINE__))`;
the right operand of `||` is evaluated only when the left one is false. -/
def ASSERT_VALID_PTR_OR_NULL (rc : Int) (p : Expr Nat) (ptext file : String) (line : Nat) :
    Expr Int :=
  fun s =>
    let r := p s
    let c : Bool × KState :=
      if r.1 = NULL then (true, r.2)
      else
        let r2 := p r.2
        (decide (r2.1 ≥ 0x200), r2.2)
    if LIKELY c.1 then (0, c.2)
    else
      let r3 := p c.2
      __invalid_ptr rc r3.1 ptext file line r3.2

/-- Expansion of `ASSERT_VALID_OBJ(_t, _o)`:
`ASSERT_VALID_PTR((_o)); ASSERT(dynamic_cast<_t>((_o)) != NULL);`, the value of
each expression statement being dropped.  The source writes the two statements
inside `do` braces with no closing `while (0)`.  `dynamic_cast` is the result of
the C++ run-time cast to `_t` (`NULL` when the object does not have that type). -/
def ASSERT_VALID_OBJ (no_text : Bool) (rc : Int) (dynamic_cast : Nat → Nat) (_t : String)
    (_o : Expr Nat) (otext file : String) (line : Nat) : Stmt :=
  seq (fun s => (ASSERT_VALID_PTR rc _o ("(" ++ otext ++ ")") file line s).2)
    (fun s =>
      (ASSERT no_text rc
        (fun s =>
          let r := _o s
          (decide (dynamic_cast r.1 ≠ NULL), r.2))
        ("dynamic_cast<" ++ _t ++ ">((" ++ otext ++ ")) != NULL") file line s).2)

/-- Expansion of `ASSERT_ZERO_INSTANCES(CLASS)`: `ASSERT(CLASS::__instances == 0)`,
with `instances` the current value of the counter. -/
def ASSERT_ZERO_INSTANCES (no_text : Bool) (rc : Int) (CLASS : String) (instances : Int)
    (file : String) (line : Nat) : Expr Int :=
  ASSERT no_text rc (Expr.val (decide (instances = 0))) (CLASS ++ "::__instances == 0") file line

end Freestanding

/-! ## Walls to detect data corruption (`_DEBUG` defined) -/

/-- The constant `WALL_SIZE`. -/
def WALL_SIZE : Nat := 8

/-- Expansion of `DECLARE_WALL(name,size)`: `long name[(size) / sizeof(long)];`
with `lb` = `sizeof(long)`; `init` is the content the array happens to have
before it is initialised. -/
def DECLARE_WALL (lb size : Nat) (init : Nat → Int) : List Int :=
  (List.range (size / lb)).map init

/-- Expansion of `INIT_WALL(name)`: `__init_wall((name), countof(name))`. -/
def INIT_WALL (lb : Nat) (name : List Int) : List Int :=
  __init_wall lb name (countof name)

/-- Expansion of `CHECK_WALL(name)`:
`__check_wall((name), countof(name), #name, THIS_FILE, __LINE__)`. -/
def CHECK_WALL (lb : Nat) (rc : Int) (name : List Int) (ntext file : String) (line : Nat) :
    Expr Int :=
  __check_wall lb rc name (countof name) ntext file line

/-! ## Debug object creation and destruction (`_DEBUG` defined) -/

/-- Expansion of `NEW_INSTANCE(CLASS)`: `++CLASS::__instances` on an `int` of
`ib` bits (the source omits the `;` after the increment).  Signed overflow is
undefined in C and yields `none`. -/
def NEW_INSTANCE (ib : Nat) (instances : Int) : Option Int :=
  if instances < INT_MAX ib then some (instances + 1) else none

/-- Expansion of `DELETE_INSTANCE(CLASS)`: `--CLASS::__instances` on an `int` of
`ib` bits (the source omits the `;` after the decrement).  Signed overflow is
undefined in C and yields `none`. -/
def DELETE_INSTANCE (ib : Nat) (instances : Int) : Option Int :=
  if INT_MIN ib < instances then some (instances - 1) else none

namespace Release

/-- Expansion of `ASSERT(x)`: `do {} while (0)`. -/
def ASSERT (_x : Expr Bool) : Stmt := fun s => s

/-- Expansion of `ASSERT2(x, help)`: `do {} while (0)`. -/
def ASSERT2 (_x : Expr Bool) (_help : Expr String) : Stmt := fun s => s

/-- Expansion of `ASSERT_VALID_PTR(p)`: `do {} while (0)`. -/
def ASSERT_VALID_PTR (_p : Expr Nat) : Stmt := fun s => s

/-- Expansion of `ASSERT_VALID_PTR_OR_NULL(p)`: `do {} while (0)`. -/
def ASSERT_VALID_PTR_OR_NULL (_p : Expr Nat) : Stmt := fun s => s

/-- Expansion of `ASSERT_VALID_OBJ(_t, _o)`: `do {} while (0)`. -/
def ASSERT_VALID_OBJ (_t : String) (_o : Expr Nat) : Stmt := fun s => s

/-- Expansion of `TRACE`: `do {} while (0)`. -/
def TRACE : Stmt := fun s => s

/-- Expansion of `TRACEMSG(x,...)`: `do {} while (0)`. -/
def TRACEMSG (_x : Expr String) (_args : List (Expr Int)) : Stmt := fun s => s

/-- Expansion of `INIT_WALL(name)`: `do {} while (0)`. -/
def INIT_WALL (_name : Expr (List Int)) : Stmt := fun s => s

/-- Expansion of `CHECK_WALL(name)`: `do {} while (0)`. -/
def CHECK_WALL (_name : Expr (List Int)) : Stmt := fun s => s

/-- Expansion of `NEW_INSTANCE(CLASS)`: `do {} while (0)`. -/
def NEW_INSTANCE (_CLASS : String) : Stmt := fun s => s

/-- Expansion of `DELETE_INSTANCE(CLASS)`: `do {} while (0)`. -/
def DELETE_INSTANCE (_CLASS : String) : Stmt := fun s => s

/-- Expansion of `ASSERT_ZERO_INSTANCES(CLASS)`: `do {} while (0)`. -/
def ASSERT_ZERO_INSTANCES (_CLASS : String) : Stmt := fun s => s

/-- The function `kdbg_init` of the release family: empty body. -/
def kdbg_init : Stmt := fun s => s

/-- The function `kputchar` of the release family: empty body, unused argument. -/
def kputchar (_c : Char) : Stmt := fun s => s

/-- The function `kputs` of the release family: empty body, unused argument. -/
def kputs (_str : String) : Stmt := fun s => s

/-- The function `kprintf` of the release family: empty body, unused arguments. -/
def kprintf (_fmt : String) (_args : List Int) : Stmt := fun s => s

end Release

/-! ## Facts about the embedding -/

theorem reports_report (s : KState) (r : Report) :
    (s.report r).reports = s.reports ++ [r] := by
  simp [KState.report, KState.reports, List.filterMap_append]

theorem ulong_of_lt (lb p : Nat) (h : p < 2 ^ (8 * lb)) : ulong lb p = p := by
  simp [ulong, Nat.mod_eq_of_lt h]

theorem hosted_valid_ptr_pass (lb p : Nat) (ptext file : String) (line : Nat) (s : KState)
    (hfit : p < 2 ^ (8 * lb)) (h : 0x200 < p) :
    Hosted.ASSERT_VALID_PTR lb (Expr.val p) ptext file line s = s := by
  simp [Hosted.ASSERT_VALID_PTR, Hosted.ASSERT, assert, Expr.val, ulong_of_lt lb p hfit, h]

theorem hosted_valid_ptr_fail (lb p : Nat) (ptext file : String) (line : Nat) (s : KState)
    (h : p ≤ 0x200) :
    Hosted.ASSERT_VALID_PTR lb (Expr.val p) ptext file line s =
      { (s.report ⟨Kind.assertion, "(unsigned long)(" ++ ptext ++ ") > 0x200", file, line⟩)
        with aborted := true } := by
  have h2 : ulong lb p ≤ 0x200 := le_trans (Nat.mod_le _ _) h
  simp [Hosted.ASSERT_VALID_PTR, Hosted.ASSERT, assert, Expr.val, Nat.not_lt.mpr h2]

theorem freestanding_valid_ptr_pass (rc : Int) (p : Nat) (ptext file : String) (line : Nat)
    (s : KState) (h : 0x200 ≤ p) :
    Freestanding.ASSERT_VALID_PTR rc (Expr.val p) ptext file line s = (0, s) := by
  simp [Freestanding.ASSERT_VALID_PTR, LIKELY, Expr.val, h]

theorem freestanding_valid_ptr_fail (rc : Int) (p : Nat) (ptext file : String) (line : Nat)
    (s : KState) (h : p < 0x200) :
    Freestanding.ASSERT_VALID_PTR rc (Expr.val p) ptext file line s =
      (rc, s.report ⟨Kind.invalid_ptr p, ptext, file, line⟩) := by
  simp [Freestanding.ASSERT_VALID_PTR, LIKELY, Expr.val, __invalid_ptr, Nat.not_le.mpr h]

theorem hosted_valid_ptr_or_null_pass (lb p : Nat) (ptext file : String) (line : Nat)
    (s : KState) (hfit : p < 2 ^ (8 * lb)) (h : p = NULL ∨ 0x200 ≤ p) :
    Hosted.ASSERT_VALID_PTR_OR_NULL lb (Expr.val p) ptext file line s = s := by
  rcases h with h | h
  · simp [Hosted.ASSERT_VALID_PTR_OR_NULL, Hosted.ASSERT, assert, Expr.val, h]
  · by_cases h0 : p = NULL
    · simp [Hosted.ASSERT_VALID_PTR_OR_NULL, Hosted.ASSERT, assert, Expr.val, h0]
    · simp [Hosted.ASSERT_VALID_PTR_OR_NULL, Hosted.ASSERT, assert, Expr.val, h0,
        ulong_of_lt lb p hfit, h]

theorem hosted_valid_ptr_or_null_fail (lb p : Nat) (ptext file : String) (line : Nat)
    (s : KState) (h0 : p ≠ NULL) (h : p < 0x200) :
    (Hosted.ASSERT_VALID_PTR_OR_NULL lb (Expr.val p) ptext file line s).aborted = true := by
  have h2 : ulong lb p < 0x200 := lt_of_le_of_lt (Nat.mod_le _ _) h
  simp [Hosted.ASSERT_VALID_PTR_OR_NULL, Hosted.ASSERT, assert, Expr.val, h0,
    Nat.not_le.mpr h2]

theorem freestanding_valid_ptr_or_null_pass (rc : Int) (p : Nat) (ptext file : String)
    (line : Nat) (s : KState) (h : p = NULL ∨ 0x200 ≤ p) :
    Freestanding.ASSERT_VALID_PTR_OR_NULL rc (Expr.val p) ptext file line s = (0, s) := by
  rcases h with h | h
  · simp [Freestanding.ASSERT_VALID_PTR_OR_NULL, LIKELY, Expr.val, h]
  · by_cases h0 : p = NULL
    · simp [Freestanding.ASSERT_VALID_PTR_OR_NULL, LIKELY, Expr.val, h0]
    · simp [Freestanding.ASSERT_VALID_PTR_OR_NULL, LIKELY, Expr.val, h0, h]

theorem freestanding_valid_ptr_or_null_fail (rc : Int) (p : Nat) (ptext file : String)
    (line : Nat) (s : KState) (h0 : p ≠ NULL) (h : p < 0x200) :
    Freestanding.ASSERT_VALID_PTR_OR_NULL rc (Expr.val p) ptext file line s =
      (rc, s.report ⟨Kind.invalid_ptr p, ptext, file, line⟩) := by
  simp [Freestanding.ASSERT_VALID_PTR_OR_NULL, LIKELY, Expr.val, __invalid_ptr, h0,
    Nat.not_le.mpr h]

/-- C1: at the boundary address 0x200 the two families disagree.  The hosted
`ASSERT_VALID_PTR` fails (one report, process aborted), whereas the
freestanding `ASSERT_VALID_PTR` evaluates to 0 and calls no handler, although
0x200 is not strictly above the threshold. -/
theorem valid_ptr_boundary_disagrees :
    Freestanding.ASSERT_VALID_PTR 1 (Expr.val 0x200) "p" "main.c" 7 KState.init
        = (0, KState.init) ∧
      Hosted.ASSERT_VALID_PTR 4 (Expr.val 0x200) "p" "main.c" 7 KState.init
        = ⟨[Event.failure ⟨Kind.assertion, "(unsigned long)(p) > 0x200", "main.c", 7⟩],
            true, []⟩ := by
  constructor
  · exact freestanding_valid_ptr_pass 1 0x200 "p" "main.c" 7 KState.init (le_refl _)
  · rw [hosted_valid_ptr_fail 4 0x200 "p" "main.c" 7 KState.init (le_refl _)]
    rfl

/-- C2: at the non-null address 0x200 the hosted `ASSERT_VALID_PTR_OR_NULL`
succeeds (state unchanged) although the hosted `ASSERT_VALID_PTR` fails there;
the freestanding or-null variant also accepts this non-null address that is
not above 0x200. -/
theorem valid_ptr_or_null_boundary_disagrees :
    (0x200 : Nat) ≠ NULL ∧
      Hosted.ASSERT_VALID_PTR_OR_NULL 4 (Expr.val 0x200) "p" "main.c" 7 KState.init
        = KState.init ∧
      Hosted.ASSERT_VALID_PTR 4 (Expr.val 0x200) "p" "main.c" 7 KState.init
        ≠ KState.init ∧
      Freestanding.ASSERT_VALID_PTR_OR_NULL 1 (Expr.val 0x200) "p" "main.c" 7 KState.init
        = (0, KState.init) := by
  refine ⟨by decide, ?_, ?_, ?_⟩
  · exact hosted_valid_ptr_or_null_pass 4 0x200 "p" "main.c" 7 KState.init (by norm_num)
      (Or.inr (le_refl _))
  · rw [hosted_valid_ptr_fail 4 0x200 "p" "main.c" 7 KState.init (le_refl _)]
    intro h
    have := congrArg KState.aborted h
    simp [KState.init] at this
  · exact freestanding_valid_ptr_or_null_pass 1 0x200 "p" "main.c" 7 KState.init
      (Or.inr (le_refl _))

/-! ### `ASSERT` in the freestanding family -/

theorem freestanding_assert_pass (no_text : Bool) (rc : Int) (x : Expr Bool)
    (xtext file : String) (line : Nat) (s : KState) (h : (x s).1 = true) :
    Freestanding.ASSERT no_text rc x xtext file line s = (0, (x s).2) := by
  cases no_text <;> simp [Freestanding.ASSERT, LIKELY, h]

theorem freestanding_assert_fail (no_text : Bool) (rc : Int) (x : Expr Bool)
    (xtext file : String) (line : Nat) (s : KState) (h : (x s).1 = false) :
    Freestanding.ASSERT no_text rc x xtext file line s =
      __assert rc (if no_text then "" else xtext) file line (x s).2 := by
  cases no_text <;> simp [Freestanding.ASSERT, LIKELY, h]

/-- C3 as stated fails when `CONFIG_KDEBUG_ASSERT_NO_TEXT` is set: a failed
`ASSERT(x > 0)` hands the empty text to `__assert`, not the source text of the
condition. -/
theorem assert_no_text_drops_condition :
    Freestanding.ASSERT true 1 (Expr.val false) "x > 0" "main.c" 7 KState.init
        = __assert 1 "" "main.c" 7 KState.init ∧
      Freestanding.ASSERT true 1 (Expr.val false) "x > 0" "main.c" 7 KState.init
        ≠ __assert 1 "x > 0" "main.c" 7 KState.init := by
  have h := freestanding_assert_fail true 1 (Expr.val false) "x > 0" "main.c" 7 KState.init rfl
  refine ⟨h, ?_⟩
  rw [h]
  simp [__assert, KState.report, KState.init, Expr.val]

/-- C3 (amended): in the freestanding debug family, a true condition makes
`ASSERT` evaluate to 0 in the state left by the condition itself (no handler
call, nothing written); a false condition makes it call `__assert` exactly
once, with the file, the line and the text of the condition (the empty text
when `CONFIG_KDEBUG_ASSERT_NO_TEXT` is set), and evaluate to the value the
handler returns, which is non-zero; exactly one failure report is added. -/
theorem assert_freestanding_behaviour (no_text : Bool) (rc : Int) (x : Expr Bool)
    (xtext file : String) (line : Nat) (s : KState) (hrc : rc ≠ 0) :
    ((x s).1 = true →
        Freestanding.ASSERT no_text rc x xtext file line s = (0, (x s).2)) ∧
      ((x s).1 = false →
        Freestanding.ASSERT no_text rc x xtext file line s
            = __assert rc (if no_text then "" else xtext) file line (x s).2 ∧
          (Freestanding.ASSERT no_text rc x xtext file line s).1 = rc ∧
          (Freestanding.ASSERT no_text rc x xtext file line s).1 ≠ 0 ∧
          (Freestanding.ASSERT no_text rc x xtext file line s).2.reports
            = (x s).2.reports
                ++ [⟨Kind.assertion, if no_text then "" else xtext, file, line⟩] ∧
          (Freestanding.ASSERT no_text rc x xtext file line s).2.out
            = (x s).2.out
                ++ [Event.failure
                      ⟨Kind.assertion, if no_text then "" else xtext, file, line⟩]) := by
  refine ⟨freestanding_assert_pass no_text rc x xtext file line s, ?_⟩
  intro h
  rw [freestanding_assert_fail no_text rc x xtext file line s h]
  refine ⟨rfl, rfl, hrc, ?_, rfl⟩
  simp [__assert, reports_report]

/-- Witness for C3 (amended): the failed assertion `ASSERT(x > 0)` with a
handler that returns 1. -/
theorem assert_freestanding_behaviour_witness :
    (1 : Int) ≠ 0 ∧
      Freestanding.ASSERT false 1 (Expr.val false) "x > 0" "main.c" 7 KState.init
        = __assert 1 "x > 0" "main.c" 7 KState.init ∧
      (Freestanding.ASSERT false 1 (Expr.val false) "x > 0" "main.c" 7 KState.init).1 ≠ 0 :=
  have h := (assert_freestanding_behaviour false 1 (Expr.val false) "x > 0" "main.c" 7
    KState.init (by decide)).2 rfl
  ⟨by decide, h.1, h.2.2.1⟩

/-- C8: with `CONFIG_KDEBUG_ASSERT_NO_TEXT` set, a failed `ASSERT(x)` and a
failed `ASSERT2(x, help)` call `__assert` with the empty text, the file and the
line, and `ASSERT2(x, help)` is `ASSERT(x)`; with the flag unset, a failed
`ASSERT(x)` passes the source text of `x` and a failed `ASSERT2(x, help)` passes
the text `help (x)` built from the hint. -/
theorem assert_text_flag (rc : Int) (x : Expr Bool) (xtext help file : String) (line : Nat)
    (s : KState) (h : (x s).1 = false) :
    Freestanding.ASSERT true rc x xtext file line s = __assert rc "" file line (x s).2 ∧
      Freestanding.ASSERT2 true rc x xtext help file line s
        = __assert rc "" file line (x s).2 ∧
      Freestanding.ASSERT2 true rc x xtext help file line
        = Freestanding.ASSERT true rc x xtext file line ∧
      Freestanding.ASSERT false rc x xtext file line s
        = __assert rc xtext file line (x s).2 ∧
      Freestanding.ASSERT2 false rc x xtext help file line s
        = __assert rc (help ++ " (" ++ xtext ++ ")") file line (x s).2 := by
  refine ⟨?_, ?_, rfl, ?_, ?_⟩ <;>
    simp [Freestanding.ASSERT, Freestanding.ASSERT2, LIKELY, h]

/-- Witness for C8: the failed assertion `ASSERT2(x > 0, "positive")`. -/
theorem assert_text_flag_witness :
    Freestanding.ASSERT true 1 (Expr.val false) "x > 0" "main.c" 7 KState.init
        = __assert 1 "" "main.c" 7 KState.init ∧
      Freestanding.ASSERT2 false 1 (Expr.val false) "x > 0" "positive" "main.c" 7 KState.init
        = __assert 1 "positive (x > 0)" "main.c" 7 KState.init :=
  have h := assert_text_flag 1 (Expr.val false) "x > 0" "positive" "main.c" 7 KState.init rfl
  ⟨h.1, h.2.2.2.2⟩

/-! ### `ASSERT_VALID_OBJ` -/

theorem hosted_valid_obj_pass (lb : Nat) (dynamic_cast : Nat → Nat) (_t : String) (p : Nat)
    (otext file : String) (line : Nat) (s : KState) (hs : s.aborted = false)
    (hfit : p < 2 ^ (8 * lb)) (hp : 0x200 < p) (ht : dynamic_cast p ≠ NULL) :
    Hosted.ASSERT_VALID_OBJ lb dynamic_cast _t (Expr.val p) otext file line s = s := by
  simp [Hosted.ASSERT_VALID_OBJ, seq, hosted_valid_ptr_pass lb p _ file line s hfit hp, hs,
    Hosted.ASSERT, assert, Expr.val, ht]

theorem hosted_valid_obj_bad_ptr (lb : Nat) (dynamic_cast : Nat → Nat) (_t : String) (p : Nat)
    (otext file : String) (line : Nat) (s : KState) (hp : p ≤ 0x200) :
    Hosted.ASSERT_VALID_OBJ lb dynamic_cast _t (Expr.val p) otext file line s =
      { (s.report
          ⟨Kind.assertion, "(unsigned long)(" ++ ("(" ++ otext ++ ")") ++ ") > 0x200", file,
            line⟩)
        with aborted := true } := by
  simp [Hosted.ASSERT_VALID_OBJ, seq, hosted_valid_ptr_fail lb p _ file line s hp]

theorem hosted_valid_obj_bad_type (lb : Nat) (dynamic_cast : Nat → Nat) (_t : String) (p : Nat)
    (otext file : String) (line : Nat) (s : KState) (hs : s.aborted = false)
    (hfit : p < 2 ^ (8 * lb)) (hp : 0x200 < p) (ht : dynamic_cast p = NULL) :
    Hosted.ASSERT_VALID_OBJ lb dynamic_cast _t (Expr.val p) otext file line s =
      { (s.report
          ⟨Kind.assertion, "dynamic_cast<" ++ _t ++ ">((" ++ otext ++ ")) != NULL", file, line⟩)
        with aborted := true } := by
  simp [Hosted.ASSERT_VALID_OBJ, seq, hosted_valid_ptr_pass lb p _ file line s hfit hp, hs,
    Hosted.ASSERT, assert, Expr.val, ht]

theorem freestanding_valid_obj_pass (no_text : Bool) (rc : Int) (dynamic_cast : Nat → Nat)
    (_t : String) (p : Nat) (otext file : String) (line : Nat) (s : KState)
    (hs : s.aborted = false) (hp : 0x200 ≤ p) (ht : dynamic_cast p ≠ NULL) :
    Freestanding.ASSERT_VALID_OBJ no_text rc dynamic_cast _t (Expr.val p) otext file line s
      = s := by
  have h1 := freestanding_valid_ptr_pass rc p ("(" ++ otext ++ ")") file line s hp
  cases no_text <;>
    simp [Freestanding.ASSERT_VALID_OBJ, seq, h1, hs, Freestanding.ASSERT, LIKELY, Expr.val,
      ht]

theorem freestanding_valid_obj_bad_ptr (no_text : Bool) (rc : Int) (dynamic_cast : Nat → Nat)
    (_t : String) (p : Nat) (otext file : String) (line : Nat) (s : KState)
    (hs : s.aborted = false) (hp : p < 0x200) :
    ∃ rest,
      (Freestanding.ASSERT_VALID_OBJ no_text rc dynamic_cast _t (Expr.val p) otext file line
          s).reports
        = s.reports ++ ⟨Kind.invalid_ptr p, "(" ++ otext ++ ")", file, line⟩ :: rest := by
  have h1 := freestanding_valid_ptr_fail rc p ("(" ++ otext ++ ")") file line s hp
  by_cases ht : dynamic_cast p = NULL
  · refine ⟨[⟨Kind.assertion,
      if no_text then "" else "dynamic_cast<" ++ _t ++ ">((" ++ otext ++ ")) != NULL",
      file, line⟩], ?_⟩
    cases no_text <;>
      simp [Freestanding.ASSERT_VALID_OBJ, seq, h1, hs, KState.report, Freestanding.ASSERT,
        LIKELY, Expr.val, ht, __assert, KState.reports, List.filterMap_append]
  · refine ⟨[], ?_⟩
    cases no_text <;>
      simp [Freestanding.ASSERT_VALID_OBJ, seq, h1, hs, KState.report, Freestanding.ASSERT,
        LIKELY, Expr.val, ht, KState.reports, List.filterMap_append]

theorem freestanding_valid_obj_bad_type (no_text : Bool) (rc : Int) (dynamic_cast : Nat → Nat)
    (_t : String) (p : Nat) (otext file : String) (line : Nat) (s : KState)
    (hs : s.aborted = false) (hp : 0x200 ≤ p) (ht : dynamic_cast p = NULL) :
    Freestanding.ASSERT_VALID_OBJ no_text rc dynamic_cast _t (Expr.val p) otext file line s
      = s.report
          ⟨Kind.assertion,
            if no_text then "" else "dynamic_cast<" ++ _t ++ ">((" ++ otext ++ ")) != NULL",
            file, line⟩ := by
  have h1 := freestanding_valid_ptr_pass rc p ("(" ++ otext ++ ")") file line s hp
  cases no_text <;>
    simp [Freestanding.ASSERT_VALID_OBJ, seq, h1, hs, Freestanding.ASSERT, LIKELY, Expr.val,
      ht, __assert]

/-- C9: for an object of the stated type at address 0x200 the freestanding
`ASSERT_VALID_OBJ` succeeds with no report although the pointer is not above
the threshold, while the hosted `ASSERT_VALID_OBJ` fails on the same input. -/
theorem valid_obj_boundary_disagrees :
    Freestanding.ASSERT_VALID_OBJ false 1 (fun a => a) "Foo *" (Expr.val 0x200) "o" "main.c" 7
        KState.init = KState.init ∧
      (Hosted.ASSERT_VALID_OBJ 4 (fun a => a) "Foo *" (Expr.val 0x200) "o" "main.c" 7
        KState.init).reports
        = [⟨Kind.assertion, "(unsigned long)((o)) > 0x200", "main.c", 7⟩] := by
  constructor
  · exact freestanding_valid_obj_pass false 1 (fun a => a) "Foo *" 0x200 "o" "main.c" 7
      KState.init rfl (le_refl _) (by decide)
  · rw [hosted_valid_obj_bad_ptr 4 (fun a => a) "Foo *" 0x200 "o" "main.c" 7 KState.init
      (le_refl _)]
    rfl

/-! ### Walls -/

theorem init_wall_fills (lb : Nat) (wall : List Int) :
    __init_wall lb wall wall.length = List.replicate wall.length (WALL_VALUE lb) := by
  induction wall with
  | nil => rfl
  | cons w ws ih => simp [__init_wall, ih, List.replicate_succ]

theorem check_wall_intact (lb : Nat) (rc : Int) (n : Nat) (name file : String) (line : Nat)
    (s : KState) :
    __check_wall lb rc (List.replicate n (WALL_VALUE lb)) n name file line s = (0, s) := by
  induction n with
  | zero => rfl
  | succ n ih => simp [List.replicate_succ, __check_wall, ih]

theorem check_wall_broken (lb : Nat) (rc : Int) (n i : Nat) (v : Int) (name file : String)
    (line : Nat) (s : KState) (hi : i < n) (hv : v ≠ WALL_VALUE lb) :
    __check_wall lb rc ((List.replicate n (WALL_VALUE lb)).set i v) n name file line s
      = (rc, s.report ⟨Kind.wall, name, file, line⟩) := by
  induction n generalizing i with
  | zero => omega
  | succ n ih =>
    cases i with
    | zero => simp [List.replicate_succ, __check_wall, hv]
    | succ i =>
      have hi2 : i < n := by omega
      simp [List.replicate_succ, __check_wall, ih i hi2]

/-- C5: `CHECK_WALL` right after `INIT_WALL` returns success (0) and leaves the
state as it was (no report): `INIT_WALL` has set each of the words of the
region to `WALL_VALUE`, whose low 32 bits are 0xABADCAFE for a `long` of 4 and
of 8 bytes, and `CHECK_WALL` compares the same words with the same value. -/
theorem check_wall_after_init_wall (lb : Nat) (rc : Int) (R : List Int) (name file : String)
    (line : Nat) (s : KState) :
    CHECK_WALL lb rc (INIT_WALL lb R) name file line s = (0, s) ∧
      INIT_WALL lb R = List.replicate (countof R) (WALL_VALUE lb) ∧
      (∀ w ∈ INIT_WALL lb R, w = WALL_VALUE lb) ∧
      countof (INIT_WALL lb R) = countof R ∧
      WALL_VALUE 4 % 2 ^ 32 = 0xABADCAFE ∧ WALL_VALUE 8 = 0xABADCAFE := by
  have hinit : INIT_WALL lb R = List.replicate (countof R) (WALL_VALUE lb) := by
    simp [INIT_WALL, countof, init_wall_fills]
  refine ⟨?_, hinit, ?_, ?_, by decide, by decide⟩
  · rw [hinit]
    simp [CHECK_WALL, countof, check_wall_intact]
  · intro w hw
    rw [hinit] at hw
    exact (List.mem_replicate.mp hw).2
  · rw [hinit]
    simp [countof]

/-- C6: when one word of an initialised region is overwritten with a value
other than `WALL_VALUE`, `CHECK_WALL` returns the failure indicator and adds
exactly one failure report, which carries the name of the wall, the file and
the line. -/
theorem check_wall_detects_overwrite (lb : Nat) (rc : Int) (R : List Int) (i : Nat) (v : Int)
    (name file : String) (line : Nat) (s : KState)
    (hi : i < countof R) (hv : v ≠ WALL_VALUE lb) (hrc : rc ≠ 0) :
    (CHECK_WALL lb rc ((INIT_WALL lb R).set i v) name file line s).1 = rc ∧
      (CHECK_WALL lb rc ((INIT_WALL lb R).set i v) name file line s).1 ≠ 0 ∧
      (CHECK_WALL lb rc ((INIT_WALL lb R).set i v) name file line s).2
        = s.report ⟨Kind.wall, name, file, line⟩ ∧
      (CHECK_WALL lb rc ((INIT_WALL lb R).set i v) name file line s).2.reports
        = s.reports ++ [⟨Kind.wall, name, file, line⟩] := by
  have hinit : INIT_WALL lb R = List.replicate R.length (WALL_VALUE lb) := by
    simp [INIT_WALL, countof, init_wall_fills]
  have h : CHECK_WALL lb rc ((INIT_WALL lb R).set i v) name file line s
      = (rc, s.report ⟨Kind.wall, name, file, line⟩) := by
    rw [hinit]
    simp only [CHECK_WALL, countof, List.length_set, List.length_replicate]
    exact check_wall_broken lb rc R.length i v name file line s hi hv
  rw [h]
  exact ⟨rfl, hrc, rfl, reports_report _ _⟩

/-- Witness for C6: an 8-byte wall of two 4-byte words whose second word is
overwritten with 0. -/
theorem check_wall_detects_overwrite_witness :
    (CHECK_WALL 4 1 ((INIT_WALL 4 [5, 6]).set 1 0) "wall" "main.c" 7 KState.init).2.reports
      = KState.init.reports ++ [⟨Kind.wall, "wall", "main.c", 7⟩] :=
  (check_wall_detects_overwrite 4 1 [5, 6] 1 0 "wall" "main.c" 7 KState.init
    (by decide) (by decide) (by decide)).2.2.2

/-- C10: a wall declared with `DECLARE_WALL(name, size)` has `size / sizeof(long)`
words (rounded down); `INIT_WALL` and `CHECK_WALL` hand this same count to
`__init_wall` and `__check_wall`; the guarded bytes are at most `size`, and are
`size` exactly when `size` is a multiple of `sizeof(long)`; no word is guarded
when `size < sizeof(long)`; `WALL_SIZE` gives 2 words of 4 bytes and 1 word of
8 bytes. -/
theorem wall_word_count (lb size : Nat) (init : Nat → Int) (rc : Int) (name file : String)
    (line : Nat) :
    countof (DECLARE_WALL lb size init) = size / lb ∧
      INIT_WALL lb (DECLARE_WALL lb size init)
        = __init_wall lb (DECLARE_WALL lb size init) (size / lb) ∧
      CHECK_WALL lb rc (DECLARE_WALL lb size init) name file line
        = __check_wall lb rc (DECLARE_WALL lb size init) (size / lb) name file line ∧
      countof (INIT_WALL lb (DECLARE_WALL lb size init)) = size / lb ∧
      lb * countof (DECLARE_WALL lb size init) ≤ size ∧
      (lb * countof (DECLARE_WALL lb size init) = size ↔ lb ∣ size) ∧
      (size < lb → countof (DECLARE_WALL lb size init) = 0) ∧
      countof (DECLARE_WALL 4 WALL_SIZE init) = 2 ∧
      countof (DECLARE_WALL 8 WALL_SIZE init) = 1 := by
  have hc : countof (DECLARE_WALL lb size init) = size / lb := by
    simp [countof, DECLARE_WALL]
  have hinit : INIT_WALL lb (DECLARE_WALL lb size init)
      = List.replicate (size / lb) (WALL_VALUE lb) := by
    simp [INIT_WALL, init_wall_fills, ← hc, countof]
  refine ⟨hc, ?_, ?_, ?_, ?_, ?_, ?_, ?_, ?_⟩
  · simp [INIT_WALL, hc]
  · simp [CHECK_WALL, hc]
  · simp [hinit, countof]
  · rw [hc]
    exact Nat.mul_div_le size lb
  · rw [hc]
    constructor
    · intro h
      exact ⟨size / lb, h.symm⟩
    · intro h
      exact Nat.mul_div_cancel' h
  · intro h
    rw [hc]
    exact Nat.div_eq_of_lt h
  · simp [countof, DECLARE_WALL, WALL_SIZE]
  · simp [countof, DECLARE_WALL, WALL_SIZE]

/-! ### Instance tracking -/

/-- C7: with `_DEBUG` undefined every diagnostic operation leaves the whole
state, and so the diagnostic channel, as it was, whatever its arguments are
(they are not run, even when they have side effects, when the condition is
false or when the wall is broken); `kdbg_init`, `kputchar`, `kputs` and
`kprintf` write nothing. -/
theorem release_is_noop (s : KState) (x : Expr Bool) (help msg : Expr String) (p : Expr Nat)
    (w : Expr (List Int)) (args : List (Expr Int)) (t CLASS str fmt : String) (c : Char)
    (vals : List Int) :
    Release.ASSERT x s = s ∧
      Release.ASSERT2 x help s = s ∧
      Release.ASSERT_VALID_PTR p s = s ∧
      Release.ASSERT_VALID_PTR_OR_NULL p s = s ∧
      Release.ASSERT_VALID_OBJ t p s = s ∧
      Release.TRACE s = s ∧
      Release.TRACEMSG msg args s = s ∧
      Release.INIT_WALL w s = s ∧
      Release.CHECK_WALL w s = s ∧
      Release.NEW_INSTANCE CLASS s = s ∧
      Release.DELETE_INSTANCE CLASS s = s ∧
      Release.ASSERT_ZERO_INSTANCES CLASS s = s ∧
      (Release.kdbg_init s).out = s.out ∧
      (Release.kputchar c s).out = s.out ∧
      (Release.kputs str s).out = s.out ∧
      (Release.kprintf fmt vals s).out = s.out :=
  ⟨rfl, rfl, rfl, rfl, rfl, rfl, rfl, rfl, rfl, rfl, rfl, rfl, rfl, rfl, rfl, rfl⟩

end Bertos
